import Mathlib

/-!
Shallow embedding of the particle-simulation core of `snowfall.py` and proofs
of the specification claims about it.  Machine reals are modelled by `ℚ`;
random draws (`random.uniform`, `random.random`, `random.choice`) are modelled
by explicit parameters or oracle functions, with range hypotheses matching the
ranges the code draws from.  Values that only feed the renderer (colors, layer
geometry) are omitted where they do not influence any claimed behaviour.
-/

namespace Snowfall

/-! ### Configuration constants (CONFIG section of snowfall.py) -/

def LIGHTNING_LIFETIME : ℚ := 18/100

def LIGHTNING_APPEAR_DURATION : ℚ := 12/100

def LIGHTNING_MAX_DEPTH : ℕ := 3

def HAIL_BOUNCE_COEFF : ℚ := 45/100

def HAIL_MIN_BOUNCE_V : ℚ := 180

def HAIL_SPEED_MIN : ℚ := 800

def HAIL_SPEED_MAX : ℚ := 1800

def MICROBURST_STRENGTH : ℚ := 900

def MICROBURST_RADIUS : ℚ := 250

def MAX_DT : ℚ := 2/10

def METEOR_CHANCE_PER_SEC : ℚ := 1

def TORNADO_PARTICLES : ℕ := 2000

def TORNADO_DEBRIS_RATIO : ℚ := 3/10

def TORNADO_RADIUS : ℚ := 160

def DUST_DEVIL_RADIUS : ℚ := 80

def SNOW_ROTATION_SPEED_MIN : ℚ := 10

def SNOW_ROTATION_SPEED_MAX : ℚ := 40

/-! ### Frame ticking (animate, lines 1075-1081): the elapsed wall-clock gap is
clamped to MAX_DT before any population is advanced. -/

def effective_dt (gap : ℚ) : ℚ := if gap > MAX_DT then MAX_DT else gap

/-! ### Lightning reveal scheduling (spawn_lightning, lines 913-934) -/

/-- `appear_duration = min(LIGHTNING_APPEAR_DURATION, LIGHTNING_LIFETIME * 0.9)`. -/
def appearDuration : ℚ := min LIGHTNING_APPEAR_DURATION (LIGHTNING_LIFETIME * (9/10))

/-- The clamp applied to a segment's stored distance before computing its delay:
`if dist < 0: dist = 0.0` then `if dist > total_height: dist = total_height`. -/
def clampDist (H d : ℚ) : ℚ := if d < 0 then 0 else if d > H then H else d

/-- `delay = (dist / record['total_height']) * appear_duration` after clamping. -/
def revealDelay (H d : ℚ) : ℚ := clampDist H d / H * appearDuration

/-- The `add_segment` callback: it adds its layer to the scene unless the
strike is no longer alive or more than `LIGHTNING_LIFETIME` seconds have
elapsed since the strike's birth; returns whether the layer is added. -/
def addSegmentFires (alive : Bool) (elapsed : ℚ) : Bool :=
  if alive = false then false
  else if elapsed > LIGHTNING_LIFETIME then false
  else true

/-! ### Lightning generator control flow (create_lightning_segments, lines 515-593)

Only the control flow matters for the termination/depth claim: the loop
condition `remaining > 0 and attempts < 1000`, the clamping of the drawn
segment length to `remaining`, the decrement of `remaining`, and the branch
recursion guarded by `depth_limit > 0` calling at `depth_limit - 1` with a
branch height of `remaining` times a random fraction.  The geometric and
visual-layer computations of each iteration do not feed back into the loop or
recursion and are omitted.  Random draws come from oracle functions indexed by
a running counter: `lenD` for `random.uniform(length_min, length_max)` (left
unconstrained, i.e. adversarial), `brD` for `random.random() < branch_chance`,
`frD` for `random.uniform(0.25, 0.6)`. -/

structure LSResult where
  idx : ℕ
  iters : ℕ
  depthUsed : ℕ

/-- `seg_len = random.uniform(length_min, length_max); if seg_len > remaining: seg_len = remaining`. -/
def segLen (lenD : ℕ → ℚ) (idx : ℕ) (remaining : ℚ) : ℚ :=
  if lenD idx > remaining then remaining else lenD idx

/-- Combine a branch recursion's result with the continuation of the loop. -/
def afterBranch (sub rest : LSResult) : LSResult :=
  ⟨rest.idx, rest.iters + 1, max (sub.depthUsed + 1) rest.depthUsed⟩

/-- Combine a branch-free iteration with the continuation of the loop. -/
def afterPlain (rest : LSResult) : LSResult :=
  ⟨rest.idx, rest.iters + 1, rest.depthUsed⟩

/-- Control-flow skeleton of `create_lightning_segments`.  Returns the next
unused oracle index, the number of iterations of this invocation's
segment-emitting loop, and the number of recursion levels spawned below this
invocation. -/
def create_lightning_segments (lenD : ℕ → ℚ) (brD : ℕ → Bool) (frD : ℕ → ℚ)
    (idx : ℕ) (remaining : ℚ) (depth_limit attempts : ℕ) : LSResult :=
  if h1 : remaining > 0 ∧ attempts < 1000 then
    if h2 : depth_limit > 0 ∧ brD (idx + 1) = true then
      afterBranch
        (create_lightning_segments lenD brD frD (idx + 3)
          (remaining * frD (idx + 2)) (depth_limit - 1) 0)
        (create_lightning_segments lenD brD frD
          (create_lightning_segments lenD brD frD (idx + 3)
            (remaining * frD (idx + 2)) (depth_limit - 1) 0).idx
          (remaining - segLen lenD idx remaining) depth_limit (attempts + 1))
    else
      afterPlain
        (create_lightning_segments lenD brD frD (idx + 3)
          (remaining - segLen lenD idx remaining) depth_limit (attempts + 1))
  else ⟨idx, 0, 0⟩
termination_by (depth_limit, 1000 - attempts)
decreasing_by
all_goals
  first
    | exact Prod.Lex.left _ _ (by omega)
    | exact Prod.Lex.right depth_limit (by omega)

/-! ### Vortex particles (Tornado.apply_forces lines 408-441; animate lines 1247-1276) -/

/-- A tornado-owned particle (the dict made in `Tornado.__init__`). -/
structure TornadoP where
  theta : ℚ
  r : ℚ
  speed : ℚ
  fall_offset : ℚ
  vertical_speed : ℚ
  is_debris : Bool

/-- Per-tick update of one tornado particle (before the respawn test), from
`Tornado.apply_forces`: theta grows by a category-dependent rotation speed
using the pre-update radius, the radius shrinks by `dt * (12 * (1 + speed*0.4))`
floored at `8.0`, and `fall_offset` grows by
`vertical_speed * dt * (0.9 + fall_boost)` where `fall_boost` is computed from
the post-update radius (the code mutates `p['r']` in place first). -/
def tornadoParticleStep (radius dt : ℚ) (p : TornadoP) : TornadoP :=
  ⟨p.theta + dt * (if p.is_debris then 3 + p.speed * (1/2)
      else 28/10 + p.speed * (9/10) + (1 - p.r / radius) * (5/2)),
   max 8 (p.r - dt * (12 * (1 + p.speed * (2/5)))),
   p.speed,
   p.fall_offset + p.vertical_speed * dt *
     (9/10 + (1 - max 8 (p.r - dt * (12 * (1 + p.speed * (2/5)))) / radius) * (4/5)),
   p.vertical_speed,
   p.is_debris⟩

/-- A dust-devil-owned particle (the dict made in `spawn_dust_devil`). -/
structure DustDevilP where
  theta : ℚ
  r : ℚ
  speed : ℚ
  height_offset : ℚ
  vertical_speed : ℚ

/-- Per-tick update of one dust devil particle (before the respawn test), from
the dust-devils block of `animate`: radius shrinks by `dt * (10 * (1 + speed*0.3))`
floored at `5.0`, and `height_offset` grows by `vertical_speed * dt * (0.9 + height_boost)`
with `height_boost` computed from the post-update radius. -/
def dustDevilParticleStep (dt : ℚ) (p : DustDevilP) : DustDevilP :=
  ⟨p.theta + dt * (5/2 + p.speed * (4/5) + (1 - p.r / DUST_DEVIL_RADIUS) * 2),
   max 5 (p.r - dt * (10 * (1 + p.speed * (3/10)))),
   p.speed,
   p.height_offset + p.vertical_speed * dt *
     (9/10 + (1 - max 5 (p.r - dt * (10 * (1 + p.speed * (3/10)))) / DUST_DEVIL_RADIUS) * (6/5)),
   p.vertical_speed⟩

/-! ### Hail (HailParticle.respawn lines 306-313; animate lines 1157-1172) -/

structure HailP where
  x : ℚ
  y : ℚ
  v_y : ℚ

/-- Horizontal wrap for hail: `if h.x < -120: h.x = W + 120 elif h.x > W + 120: h.x = -120`. -/
def hailWrap (W x : ℚ) : ℚ :=
  if x < -120 then W + 120 else if x > W + 120 then -120 else x

/-- One tick of a hail particle.  `u_x ∈ [0, W]`, `u_y ∈ [10, 200]`,
`u_v ∈ HAIL_SPEED` are the respawn draws, `u_nudge ∈ [0, 8]` the post-bounce
nudge draw.  The particle integrates downward, bounces at the ground line
(`y < 0`) by multiplying `v_y` by `HAIL_BOUNCE_COEFF`, respawns at a fresh top
position with fresh velocity when the post-bounce velocity is below
`HAIL_MIN_BOUNCE_V`, else is nudged just above the ground; `x` wraps at the
horizontal margins. -/
def hailTick (W H dt wind u_x u_y u_v u_nudge : ℚ) (h : HailP) : HailP :=
  ⟨hailWrap W (if h.y - h.v_y * dt < 0 then
      (if h.v_y * HAIL_BOUNCE_COEFF < HAIL_MIN_BOUNCE_V then u_x
       else h.x + wind * dt * (9/50))
    else h.x + wind * dt * (9/50)),
   (if h.y - h.v_y * dt < 0 then
      (if h.v_y * HAIL_BOUNCE_COEFF < HAIL_MIN_BOUNCE_V then H + u_y
       else 6 + u_nudge)
    else h.y - h.v_y * dt),
   (if h.y - h.v_y * dt < 0 then
      (if h.v_y * HAIL_BOUNCE_COEFF < HAIL_MIN_BOUNCE_V then u_v
       else h.v_y * HAIL_BOUNCE_COEFF)
    else h.v_y)⟩

/-! ### Microburst forces (animate lines 1113-1121 for snow, 1138-1144 for rain) -/

/-- The denominator of the radial microburst push: `max(1.0, dist)`. -/
def microDenom (dist : ℚ) : ℚ := max 1 dist

/-- The microburst displacement applied to a snow particle inside the snow
update loop of `animate`.  `dist` stands for `math.hypot(dx, dy)`, the
particle's distance from the microburst center; `mx` is the center's x.
Returns the new `(x, y)`. -/
def snowMicroburst (dt mx dist x y : ℚ) : ℚ × ℚ :=
  if dist < 250 then
    (x + (x - mx) / microDenom dist * (MICROBURST_STRENGTH * (3/100)) * dt,
     y - (MICROBURST_STRENGTH * dt) * (1 - dist / 250))
  else (x, y)

/-- The microburst displacement applied to a rain particle (textually the same
block, repeated in the rain update loop of `animate`). -/
def rainMicroburst (dt mx dist x y : ℚ) : ℚ × ℚ :=
  if dist < 250 then
    (x + (x - mx) / microDenom dist * (MICROBURST_STRENGTH * (3/100)) * dt,
     y - (MICROBURST_STRENGTH * dt) * (1 - dist / 250))
  else (x, y)

/-- Modelled from the spec: the downward impulse
`MICROBURST_STRENGTH × dt × (1 − dist/radius)` that the spec claims every
particle of every population within the influence radius receives each tick. -/
def specMicroburstImpulse (dt dist : ℚ) : ℚ :=
  MICROBURST_STRENGTH * dt * (1 - dist / 250)

/-! ### Generic kinetic particle respawn (Particle.respawn_top lines 278-296;
snow boundary policy in animate lines 1122-1128) -/

structure KineticP where
  x : ℚ
  y : ℚ
  speed : ℚ
  jitter : ℚ
  radius : ℚ
  angle : ℚ
  rot_speed : ℚ

/-- `Particle.respawn_top` without overrides (as the snow population calls it):
position is re-drawn (`x ∈ [0, W]`, `y = H + u` with `u ∈ [20, 200]`), the
rotation angle is re-drawn from `[0, 360]` and the rotation speed from
`[-60, 60]`; `speed`, `jitter` and `radius` are left as they were. -/
def respawn_top (W H u_x u_y u_a u_r : ℚ) (p : KineticP) : KineticP :=
  { p with x := u_x, y := H + u_y, angle := u_a, rot_speed := u_r }

/-- Snow horizontal wrap from `animate`:
`if p.x + p.radius < -120: p.x = W + p.radius elif p.x - p.radius > W + 120: p.x = -p.radius`. -/
def snowWrap (W radius x : ℚ) : ℚ :=
  if x + radius < -120 then W + radius
  else if x - radius > W + 120 then -radius
  else x

/-- Leaf boundary policy from `animate` (lines 1183-1184): unlike snow and
rain, a leaf has no horizontal wrap; it is respawned through `respawn_top`
as soon as it falls below `-200` or drifts past either `±400` horizontal
margin. -/
def leafBoundary (W H u_x u_y u_a u_r : ℚ) (p : KineticP) : KineticP :=
  if p.y < -200 ∨ p.x < -400 ∨ p.x > W + 400 then
    respawn_top W H u_x u_y u_a u_r p
  else p

/-! ### Meteor accumulator (maybe_spawn_meteor, lines 1005-1030) -/

/-- The accumulator after the `while meteor_accum > 1.0: meteor_accum -= 1.0` loop. -/
def drainAccum (a : ℚ) : ℚ :=
  if h : a > 1 then drainAccum (a - 1) else a
termination_by (⌈a⌉).toNat
decreasing_by
have h2 : ⌈a - 1⌉ = ⌈a⌉ - 1 := by
  rw [sub_eq_add_neg, show (-1 : ℚ) = ((-1 : ℤ) : ℚ) by norm_num, Int.ceil_add_int]; omega
have h1 : (1 : ℤ) < ⌈a⌉ := by
  rw [Int.lt_ceil]; exact_mod_cast h
omega

/-- The number of times the drain loop body runs (= meteors spawned when the
effect is enabled). -/
def drainCount (a : ℚ) : ℕ :=
  if h : a > 1 then drainCount (a - 1) + 1 else 0
termination_by (⌈a⌉).toNat
decreasing_by
have h2 : ⌈a - 1⌉ = ⌈a⌉ - 1 := by
  rw [sub_eq_add_neg, show (-1 : ℚ) = ((-1 : ℤ) : ℚ) by norm_num, Int.ceil_add_int]; omega
have h1 : (1 : ℤ) < ⌈a⌉ := by
  rw [Int.lt_ceil]; exact_mod_cast h
omega

/-- `maybe_spawn_meteor`: add `METEOR_CHANCE_PER_SEC * dt` to the accumulator,
then drain it in unit steps; one meteor is spawned per drained unit when
`ENABLE_METEORS` holds, none otherwise (the `continue` branch still consumes
the unit).  Returns the new accumulator and the number of spawned meteors. -/
def maybe_spawn_meteor (enabled : Bool) (accum dt : ℚ) : ℚ × ℕ :=
  (drainAccum (accum + METEOR_CHANCE_PER_SEC * dt),
   if enabled then drainCount (accum + METEOR_CHANCE_PER_SEC * dt) else 0)

/-! ### Tornado spawn (Tornado.__init__, lines 334-338) -/

structure TornadoInitP where
  is_debris : Bool
  size : ℚ

/-- The local `total_particles = 200` of `Tornado.__init__`. -/
def tornadoSpawnCount : ℕ := 200

/-- The owned-particle list built by `Tornado.__init__`: exactly
`tornadoSpawnCount` particles, the i-th being debris iff
`random.random() < 0.3` (modelled by `debrisDraw i < 3/10`). -/
def tornadoInitParticles (debrisDraw sizeDraw : ℕ → ℚ) : List TornadoInitP :=
  (List.range tornadoSpawnCount).map (fun i => ⟨decide (debrisDraw i < 3/10), sizeDraw i⟩)

/-! ### Tornado force on other populations (Tornado.apply_forces, lines 473-481) -/

/-- The rotational force applied to one foreign particle: nonzero only under
the guard `dist < radius * 1.8 and dist > 5.0`; inside the guard it divides by
`dist`.  Returns the `(dx, dy)` displacement added to the particle (`lift` is
the population's constant lift term, e.g. `80.0` for snow). -/
def tornadoPush (intensity radius dt dx dy dist lift : ℚ) : ℚ × ℚ :=
  if dist < radius * (9/5) ∧ dist > 5 then
    (-dy / dist * (intensity * 250 * (1 - dist / (radius * (9/5)))) * dt,
     dx / dist * (intensity * 250 * (1 - dist / (radius * (9/5)))) * dt * (2/5)
       - lift * dt * intensity)
  else (0, 0)

/-! ### Helper lemmas -/

theorem drainAccum_le_one (a : ℚ) : drainAccum a ≤ 1 := by
  induction a using drainAccum.induct with
  | case1 a h ih => rw [drainAccum, dif_pos h]; exact ih
  | case2 a h => rw [drainAccum, dif_neg h]; exact le_of_not_lt h

theorem drainAccum_eq_sub_count (a : ℚ) : drainAccum a = a - (drainCount a : ℚ) := by
  induction a using drainAccum.induct with
  | case1 a h ih =>
      rw [drainAccum, dif_pos h, drainCount, dif_pos h, ih]; push_cast; ring
  | case2 a h =>
      rw [drainAccum, dif_neg h, drainCount, dif_neg h]; norm_num

theorem afterBranch_iters (s r : LSResult) : (afterBranch s r).iters = r.iters + 1 := rfl

theorem afterBranch_depth (s r : LSResult) :
    (afterBranch s r).depthUsed = max (s.depthUsed + 1) r.depthUsed := rfl

theorem afterPlain_iters (r : LSResult) : (afterPlain r).iters = r.iters + 1 := rfl

theorem afterPlain_depth (r : LSResult) : (afterPlain r).depthUsed = r.depthUsed := rfl

/-- Strong induction on the measure `d * 1001 + (1000 - a)`: every invocation
of the lightning generator runs its loop at most `1000 - attempts` more times
and spawns at most `depth_limit` levels of branch recursion below itself. -/
theorem cls_aux (lenD : ℕ → ℚ) (brD : ℕ → Bool) (frD : ℕ → ℚ) :
    ∀ (n idx : ℕ) (remaining : ℚ) (d a : ℕ),
      d * 1001 + (1000 - a) ≤ n →
      (create_lightning_segments lenD brD frD idx remaining d a).iters ≤ 1000 - a ∧
      (create_lightning_segments lenD brD frD idx remaining d a).depthUsed ≤ d := by
  intro n
  induction n with
  | zero =>
    intro idx remaining d a hm
    have hcond : ¬(remaining > 0 ∧ a < 1000) := fun hc => absurd hc.2 (by omega)
    rw [create_lightning_segments, dif_neg hcond]
    exact ⟨Nat.zero_le _, Nat.zero_le _⟩
  | succ n ih =>
    intro idx remaining d a hm
    rw [create_lightning_segments]
    by_cases h1 : remaining > 0 ∧ a < 1000
    · rw [dif_pos h1]
      obtain ⟨-, ha⟩ := h1
      by_cases h2 : d > 0 ∧ brD (idx + 1) = true
      · rw [dif_pos h2]
        obtain ⟨hd0, -⟩ := h2
        obtain ⟨hs1, hs2⟩ := ih (idx + 3) (remaining * frD (idx + 2)) (d - 1) 0 (by omega)
        obtain ⟨hr1, hr2⟩ := ih
          ((create_lightning_segments lenD brD frD (idx + 3)
            (remaining * frD (idx + 2)) (d - 1) 0).idx)
          (remaining - segLen lenD idx remaining) d (a + 1) (by omega)
        constructor
        · rw [afterBranch_iters]
          omega
        · rw [afterBranch_depth]
          exact max_le (by omega) hr2
      · rw [dif_neg h2]
        obtain ⟨hr1, hr2⟩ := ih (idx + 3) (remaining - segLen lenD idx remaining) d (a + 1)
          (by omega)
        constructor
        · rw [afterPlain_iters]
          omega
        · rw [afterPlain_depth]
          exact hr2
    · rw [dif_neg h1]
      exact ⟨Nat.zero_le _, Nat.zero_le _⟩

/-! ### Claim theorems -/

/-- C2: `create_lightning_segments` terminates under arbitrary (adversarial)
random draws: the segment-emitting loop of an invocation entered with
`attempts` already used runs at most `1000 - attempts` more iterations (so at
most 1000, the attempt cap, from a fresh call), and a branch recursion is
spawned only when `depth_limit > 0` with the child called at
`depth_limit - 1`, so the recursion below a top-level call never exceeds
`LIGHTNING_MAX_DEPTH` levels.  (The Lean model is a total function, so its
mere definedness is the termination statement; the bounds below are the
quantitative content.) -/
theorem create_lightning_segments_terminates
    (lenD : ℕ → ℚ) (brD : ℕ → Bool) (frD : ℕ → ℚ) (idx : ℕ) (remaining : ℚ)
    (d a : ℕ) :
    (create_lightning_segments lenD brD frD idx remaining d a).iters ≤ 1000 - a ∧
    (create_lightning_segments lenD brD frD idx remaining d a).depthUsed ≤ d ∧
    (create_lightning_segments lenD brD frD idx remaining LIGHTNING_MAX_DEPTH 0).iters
      ≤ 1000 ∧
    (create_lightning_segments lenD brD frD idx remaining LIGHTNING_MAX_DEPTH 0).depthUsed
      ≤ LIGHTNING_MAX_DEPTH := by
  obtain ⟨h1, h2⟩ := cls_aux lenD brD frD (d * 1001 + (1000 - a)) idx remaining d a le_rfl
  obtain ⟨h3, h4⟩ := cls_aux lenD brD frD (LIGHTNING_MAX_DEPTH * 1001 + 1000) idx remaining
    LIGHTNING_MAX_DEPTH 0 (by norm_num [LIGHTNING_MAX_DEPTH])
  exact ⟨h1, h2, h3, h4⟩

/-- C8: for every invocation of the per-frame tick callback, the effective
delta time used to advance all populations is at most `MAX_DT`, no matter how
large the wall-clock gap since the previous tick was. -/
theorem effective_dt_le_MAX_DT (gap : ℚ) : effective_dt gap ≤ MAX_DT := by
  unfold effective_dt
  split
  · exact le_rfl
  · exact le_of_not_lt (by assumption)

/-- C1: a generated segment at stored distance `d` in a strike of total height
`H` is scheduled to reveal after `delay = (d/H) * appear_duration` with `d`
clamped into `[0, H]`, so the delay lies in `[0, appear_duration]`; and the
reveal callback silently skips (adds nothing to the scene) once the strike is
marked not alive or once more than `LIGHTNING_LIFETIME` has elapsed since the
strike's birth. -/
theorem revealDelay_bounds (H d e1 e2 : ℚ) (a : Bool)
    (hH : 0 < H) (he2 : LIGHTNING_LIFETIME < e2) :
    revealDelay H d = clampDist H d / H * appearDuration ∧
    0 ≤ revealDelay H d ∧
    revealDelay H d ≤ appearDuration ∧
    addSegmentFires false e1 = false ∧
    addSegmentFires a e2 = false := by
  have hc0 : 0 ≤ clampDist H d := by
    unfold clampDist
    split
    · exact le_rfl
    · split
      · exact le_of_lt hH
      · exact le_of_not_lt (by assumption)
  have hcH : clampDist H d ≤ H := by
    unfold clampDist
    split
    · exact le_of_lt hH
    · split
      · exact le_rfl
      · exact le_of_not_lt (by assumption)
  have hD : 0 ≤ appearDuration := by
    norm_num [appearDuration, LIGHTNING_APPEAR_DURATION, LIGHTNING_LIFETIME]
  have hdiv0 : 0 ≤ clampDist H d / H := div_nonneg hc0 hH.le
  have hdiv1 : clampDist H d / H ≤ 1 := (div_le_one hH).mpr hcH
  refine ⟨rfl, mul_nonneg hdiv0 hD, ?_, by simp [addSegmentFires], ?_⟩
  · calc clampDist H d / H * appearDuration ≤ 1 * appearDuration :=
        mul_le_mul_of_nonneg_right hdiv1 hD
    _ = appearDuration := one_mul _
  · cases a <;> simp [addSegmentFires, he2]

/-- Witness for C1 at `H = 2`, `d = 5`, elapsed times `0` and `1`. -/
theorem revealDelay_bounds_witness :
    (0:ℚ) < 2 ∧ LIGHTNING_LIFETIME < 1 ∧
    (revealDelay 2 5 = clampDist 2 5 / 2 * appearDuration ∧
     0 ≤ revealDelay 2 5 ∧
     revealDelay 2 5 ≤ appearDuration ∧
     addSegmentFires false 0 = false ∧
     addSegmentFires true 1 = false) :=
  ⟨by norm_num, by norm_num [LIGHTNING_LIFETIME],
   revealDelay_bounds 2 5 0 1 true (by norm_num) (by norm_num [LIGHTNING_LIFETIME])⟩

/-- C7: each tick adds `METEOR_CHANCE_PER_SEC * dt` to the meteor accumulator
and drains it in unit steps, spawning one meteor per drained unit; when the
effect is disabled the unit is still consumed but nothing spawns; afterwards
the accumulator is at most 1. -/
theorem maybe_spawn_meteor_accum_le_one (enabled : Bool) (accum dt : ℚ)
    (hdt : 0 ≤ dt) :
    (maybe_spawn_meteor enabled accum dt).1 ≤ 1 ∧
    (maybe_spawn_meteor enabled accum dt).1 =
      accum + METEOR_CHANCE_PER_SEC * dt - ((maybe_spawn_meteor true accum dt).2 : ℚ) ∧
    (maybe_spawn_meteor false accum dt).1 = (maybe_spawn_meteor true accum dt).1 ∧
    (maybe_spawn_meteor false accum dt).2 = 0 :=
  ⟨drainAccum_le_one _, drainAccum_eq_sub_count _, rfl, rfl⟩

/-- Witness for C7 at `accum = 1/2`, `dt = 3`, effect enabled. -/
theorem maybe_spawn_meteor_accum_le_one_witness :
    (0:ℚ) ≤ 3 ∧
    ((maybe_spawn_meteor true (1/2) 3).1 ≤ 1 ∧
     (maybe_spawn_meteor true (1/2) 3).1 =
       1/2 + METEOR_CHANCE_PER_SEC * 3 - ((maybe_spawn_meteor true (1/2) 3).2 : ℚ) ∧
     (maybe_spawn_meteor false (1/2) 3).1 = (maybe_spawn_meteor true (1/2) 3).1 ∧
     (maybe_spawn_meteor false (1/2) 3).2 = 0) :=
  ⟨by norm_num, maybe_spawn_meteor_accum_le_one true (1/2) 3 (by norm_num)⟩

/-- C9: `Tornado.__init__` always creates exactly 200 owned particles, the
i-th being debris precisely when its `random.random()` draw is below `0.3`;
the configured `TORNADO_PARTICLES = 2000` (and the debris-fraction constant)
play no role, so the owned-particle count differs from the configured total. -/
theorem tornado_spawn_count_fixed (debrisDraw sizeDraw : ℕ → ℚ) (i : ℕ)
    (hi : i < tornadoSpawnCount) :
    (tornadoInitParticles debrisDraw sizeDraw).length = 200 ∧
    TornadoInitP.mk (decide (debrisDraw i < 3/10)) (sizeDraw i) ∈
      tornadoInitParticles debrisDraw sizeDraw ∧
    TORNADO_PARTICLES = 2000 ∧ TORNADO_DEBRIS_RATIO = 3/10 ∧
    (tornadoInitParticles debrisDraw sizeDraw).length ≠ TORNADO_PARTICLES := by
  refine ⟨?_, ?_, rfl, rfl, ?_⟩
  · simp [tornadoInitParticles, tornadoSpawnCount]
  · simp only [tornadoInitParticles, List.mem_map]
    exact ⟨i, by simpa [tornadoSpawnCount] using hi, rfl⟩
  · simp [tornadoInitParticles, tornadoSpawnCount, TORNADO_PARTICLES]

/-- Witness for C9 with constant draw oracles and `i = 0`. -/
theorem tornado_spawn_count_fixed_witness :
    0 < tornadoSpawnCount ∧
    ((tornadoInitParticles (fun _ => 0) (fun _ => 2)).length = 200 ∧
     TornadoInitP.mk (decide ((0:ℚ) < 3/10)) 2 ∈
       tornadoInitParticles (fun _ => 0) (fun _ => 2) ∧
     TORNADO_PARTICLES = 2000 ∧ TORNADO_DEBRIS_RATIO = 3/10 ∧
     (tornadoInitParticles (fun _ => 0) (fun _ => 2)).length ≠ TORNADO_PARTICLES) :=
  ⟨by norm_num [tornadoSpawnCount],
   tornado_spawn_count_fixed (fun _ => 0) (fun _ => 2) 0
     (by norm_num [tornadoSpawnCount])⟩

/-- C10: the force computations dividing by a particle's distance are total
regardless of particle position.  The microburst radial push always divides by
`max(1.0, dist)`, which is at least 1 and never zero, for any distance.  The
tornado rotational force divides by `dist` exactly at in-guard positions
(`dist < radius*1.8 and dist > 5.0`, binder `dist` with hypothesis `hin`),
and every such in-guard distance is nonzero; at every out-of-guard position
(binder `dist2`) no force — hence no division — is applied at all.  Together
the two binders cover every position. -/
theorem force_division_total (radius dist dist2 intensity dt dx dy lift : ℚ)
    (hin : dist < radius * (9/5) ∧ dist > 5)
    (hout : ¬(dist2 < radius * (9/5) ∧ dist2 > 5)) :
    1 ≤ microDenom dist ∧ microDenom dist ≠ 0 ∧
    1 ≤ microDenom dist2 ∧ microDenom dist2 ≠ 0 ∧
    dist ≠ 0 ∧
    tornadoPush intensity radius dt dx dy dist lift =
      (-dy / dist * (intensity * 250 * (1 - dist / (radius * (9/5)))) * dt,
       dx / dist * (intensity * 250 * (1 - dist / (radius * (9/5)))) * dt * (2/5)
         - lift * dt * intensity) ∧
    tornadoPush intensity radius dt dx dy dist2 lift = (0, 0) := by
  refine ⟨le_max_left 1 dist,
    ne_of_gt (lt_of_lt_of_le one_pos (le_max_left 1 dist)),
    le_max_left 1 dist2,
    ne_of_gt (lt_of_lt_of_le one_pos (le_max_left 1 dist2)),
    ne_of_gt (lt_trans (by norm_num) hin.2), ?_, ?_⟩
  · unfold tornadoPush
    rw [if_pos hin]
  · unfold tornadoPush
    rw [if_neg hout]

/-- Witness for C10 at `radius = 160` with the in-guard, actually dividing
distance `100` (`5 < 100 < 288`) and the out-of-guard distance `300`. -/
theorem force_division_total_witness :
    ((100:ℚ) < 160 * (9/5) ∧ (100:ℚ) > 5) ∧
    ¬((300:ℚ) < 160 * (9/5) ∧ (300:ℚ) > 5) ∧
    (1 ≤ microDenom 100 ∧ microDenom 100 ≠ 0 ∧
     1 ≤ microDenom 300 ∧ microDenom 300 ≠ 0 ∧
     (100:ℚ) ≠ 0 ∧
     tornadoPush 1 160 1 1 1 100 80 =
       (-1 / 100 * (1 * 250 * (1 - 100 / (160 * (9/5)))) * 1,
        1 / 100 * (1 * 250 * (1 - 100 / (160 * (9/5)))) * 1 * (2/5) - 80 * 1 * 1) ∧
     tornadoPush 1 160 1 1 1 300 80 = (0, 0)) :=
  ⟨by norm_num, by norm_num,
   force_division_total 160 100 300 1 1 1 1 80 (by norm_num) (by norm_num)⟩

/-- Reduction of `snowMicroburst` inside the influence radius. -/
theorem snowMicroburst_apply (dt mx dist x y : ℚ) (hdist : dist < 250) :
    snowMicroburst dt mx dist x y =
      (x + (x - mx) / microDenom dist * (MICROBURST_STRENGTH * (3/100)) * dt,
       y - (MICROBURST_STRENGTH * dt) * (1 - dist / 250)) := by
  unfold snowMicroburst
  rw [if_pos hdist]

/-- Reduction of `rainMicroburst` inside the influence radius. -/
theorem rainMicroburst_apply (dt mx dist x y : ℚ) (hdist : dist < 250) :
    rainMicroburst dt mx dist x y =
      (x + (x - mx) / microDenom dist * (MICROBURST_STRENGTH * (3/100)) * dt,
       y - (MICROBURST_STRENGTH * dt) * (1 - dist / 250)) := by
  unfold rainMicroburst
  rw [if_pos hdist]

/-- C3: for a vortex-owned particle and a tick with `dt ≥ 0`, between respawns
the polar radius is non-increasing and never drops below the configured floor
(8.0 for the tornado, 5.0 for the dust devil), and the axial offset
(`fall_offset` for the tornado, `height_offset` for the dust devil) is
non-decreasing.  The hypotheses are the ranges the code establishes at spawn
and respawn: nonnegative category speed and axial speed, radius at least the
floor and at most 1.5 (resp. 1.2) times the vortex radius. -/
theorem vortex_particle_invariants
    (radius dt : ℚ) (p : TornadoP) (q : DustDevilP)
    (hdt : 0 ≤ dt) (hrad : 8 ≤ radius)
    (hps : 0 ≤ p.speed) (hpv : 0 ≤ p.vertical_speed)
    (hpr : 8 ≤ p.r) (hpr2 : p.r ≤ radius * (3/2))
    (hqs : 0 ≤ q.speed) (hqv : 0 ≤ q.vertical_speed)
    (hqr : 5 ≤ q.r) (hqr2 : q.r ≤ DUST_DEVIL_RADIUS * (6/5)) :
    ((tornadoParticleStep radius dt p).r ≤ p.r ∧
     8 ≤ (tornadoParticleStep radius dt p).r ∧
     p.fall_offset ≤ (tornadoParticleStep radius dt p).fall_offset) ∧
    ((dustDevilParticleStep dt q).r ≤ q.r ∧
     5 ≤ (dustDevilParticleStep dt q).r ∧
     q.height_offset ≤ (dustDevilParticleStep dt q).height_offset) := by
  have hrad0 : (0:ℚ) < radius := by linarith
  have hS : 0 ≤ dt * (12 * (1 + p.speed * (2/5))) := mul_nonneg hdt (by nlinarith)
  have hr1 : max 8 (p.r - dt * (12 * (1 + p.speed * (2/5)))) ≤ p.r :=
    max_le hpr (by linarith)
  have hr3 : max 8 (p.r - dt * (12 * (1 + p.speed * (2/5)))) ≤ radius * (3/2) :=
    max_le (by linarith) (by linarith)
  have hu : max 8 (p.r - dt * (12 * (1 + p.speed * (2/5)))) / radius ≤ 3/2 := by
    rw [div_le_iff hrad0]
    linarith
  have hfac : 0 ≤ 9/10 +
      (1 - max 8 (p.r - dt * (12 * (1 + p.speed * (2/5)))) / radius) * (4/5) := by
    linarith
  have hoff : 0 ≤ p.vertical_speed * dt * (9/10 +
      (1 - max 8 (p.r - dt * (12 * (1 + p.speed * (2/5)))) / radius) * (4/5)) :=
    mul_nonneg (mul_nonneg hpv hdt) hfac
  have hdd : (0:ℚ) < DUST_DEVIL_RADIUS := by norm_num [DUST_DEVIL_RADIUS]
  have hT : 0 ≤ dt * (10 * (1 + q.speed * (3/10))) := mul_nonneg hdt (by nlinarith)
  have hq1 : max 5 (q.r - dt * (10 * (1 + q.speed * (3/10)))) ≤ q.r :=
    max_le hqr (by linarith)
  have hq3 : max 5 (q.r - dt * (10 * (1 + q.speed * (3/10)))) ≤ DUST_DEVIL_RADIUS * (6/5) := by
    refine max_le ?_ (by linarith)
    norm_num [DUST_DEVIL_RADIUS]
  have hv : max 5 (q.r - dt * (10 * (1 + q.speed * (3/10)))) / DUST_DEVIL_RADIUS ≤ 6/5 := by
    rw [div_le_iff hdd]
    linarith
  have hqfac : 0 ≤ 9/10 +
      (1 - max 5 (q.r - dt * (10 * (1 + q.speed * (3/10)))) / DUST_DEVIL_RADIUS) * (6/5) := by
    linarith
  have hqoff : 0 ≤ q.vertical_speed * dt * (9/10 +
      (1 - max 5 (q.r - dt * (10 * (1 + q.speed * (3/10)))) / DUST_DEVIL_RADIUS) * (6/5)) :=
    mul_nonneg (mul_nonneg hqv hdt) hqfac
  exact ⟨⟨hr1, le_max_left _ _, by show p.fall_offset ≤ p.fall_offset + _; linarith⟩,
    ⟨hq1, le_max_left _ _, by show q.height_offset ≤ q.height_offset + _; linarith⟩⟩

/-- Witness for C3 at `radius = 160`, `dt = 1/10` with concrete particles. -/
theorem vortex_particle_invariants_witness :
    ((0:ℚ) ≤ 1/10 ∧ (8:ℚ) ≤ 160 ∧
     (0:ℚ) ≤ (TornadoP.mk 0 100 2 0 100 false).speed ∧
     (0:ℚ) ≤ (TornadoP.mk 0 100 2 0 100 false).vertical_speed ∧
     (8:ℚ) ≤ (TornadoP.mk 0 100 2 0 100 false).r ∧
     (TornadoP.mk 0 100 2 0 100 false).r ≤ 160 * (3/2) ∧
     (0:ℚ) ≤ (DustDevilP.mk 0 50 2 0 50).speed ∧
     (0:ℚ) ≤ (DustDevilP.mk 0 50 2 0 50).vertical_speed ∧
     (5:ℚ) ≤ (DustDevilP.mk 0 50 2 0 50).r ∧
     (DustDevilP.mk 0 50 2 0 50).r ≤ DUST_DEVIL_RADIUS * (6/5)) ∧
    (((tornadoParticleStep 160 (1/10) (TornadoP.mk 0 100 2 0 100 false)).r ≤
        (TornadoP.mk 0 100 2 0 100 false).r ∧
      8 ≤ (tornadoParticleStep 160 (1/10) (TornadoP.mk 0 100 2 0 100 false)).r ∧
      (TornadoP.mk 0 100 2 0 100 false).fall_offset ≤
        (tornadoParticleStep 160 (1/10) (TornadoP.mk 0 100 2 0 100 false)).fall_offset) ∧
     ((dustDevilParticleStep (1/10) (DustDevilP.mk 0 50 2 0 50)).r ≤
        (DustDevilP.mk 0 50 2 0 50).r ∧
      5 ≤ (dustDevilParticleStep (1/10) (DustDevilP.mk 0 50 2 0 50)).r ∧
      (DustDevilP.mk 0 50 2 0 50).height_offset ≤
        (dustDevilParticleStep (1/10) (DustDevilP.mk 0 50 2 0 50)).height_offset)) :=
  ⟨by norm_num [DUST_DEVIL_RADIUS],
   vortex_particle_invariants 160 (1/10) (TornadoP.mk 0 100 2 0 100 false)
     (DustDevilP.mk 0 50 2 0 50)
     (by norm_num) (by norm_num) (by norm_num) (by norm_num) (by norm_num)
     (by norm_num) (by norm_num) (by norm_num) (by norm_num)
     (by norm_num [DUST_DEVIL_RADIUS])⟩

/-- C4: hail integrates downward at its own velocity; crossing the ground line
multiplies the velocity by `HAIL_BOUNCE_COEFF`; a post-bounce velocity below
`HAIL_MIN_BOUNCE_V` triggers a respawn at a fresh top position (`y ∈ [H+10,
H+200]`) with a fresh velocity drawn from `HAIL_SPEED`; otherwise the particle
is nudged just above the ground (`y ∈ [6, 14]`) and keeps falling; `x` wraps
at the horizontal margins; the bounce velocity decays strictly at each bounce
and from any starting velocity at most `HAIL_SPEED_MAX`, three bounces suffice
to fall below `HAIL_MIN_BOUNCE_V`, so every particle respawns within a bounded
number of bounces. -/
theorem hail_dynamics
    (W H dt wind u_x u_y u_v u_nudge x1 x2 v1 v2 : ℚ) (h : HailP)
    (hW : 0 ≤ W)
    (hux : 0 ≤ u_x) (hux2 : u_x ≤ W)
    (huy : 10 ≤ u_y) (huy2 : u_y ≤ 200)
    (huv : HAIL_SPEED_MIN ≤ u_v) (huv2 : u_v ≤ HAIL_SPEED_MAX)
    (hun : 0 ≤ u_nudge) (hun2 : u_nudge ≤ 8)
    (hx1 : x1 < -120) (hx2 : x2 > W + 120)
    (hv1 : 0 < v1) (hv2 : v2 ≤ HAIL_SPEED_MAX) :
    (¬(h.y - h.v_y * dt < 0) →
       hailTick W H dt wind u_x u_y u_v u_nudge h =
         ⟨hailWrap W (h.x + wind * dt * (9/50)), h.y - h.v_y * dt, h.v_y⟩) ∧
    (h.y - h.v_y * dt < 0 → h.v_y * HAIL_BOUNCE_COEFF < HAIL_MIN_BOUNCE_V →
       hailTick W H dt wind u_x u_y u_v u_nudge h = ⟨u_x, H + u_y, u_v⟩ ∧
       H + 10 ≤ H + u_y ∧ H + u_y ≤ H + 200 ∧
       HAIL_SPEED_MIN ≤ u_v ∧ u_v ≤ HAIL_SPEED_MAX) ∧
    (h.y - h.v_y * dt < 0 → ¬(h.v_y * HAIL_BOUNCE_COEFF < HAIL_MIN_BOUNCE_V) →
       (hailTick W H dt wind u_x u_y u_v u_nudge h).v_y = h.v_y * HAIL_BOUNCE_COEFF ∧
       6 ≤ (hailTick W H dt wind u_x u_y u_v u_nudge h).y ∧
       (hailTick W H dt wind u_x u_y u_v u_nudge h).y ≤ 14) ∧
    hailWrap W x1 = W + 120 ∧ hailWrap W x2 = -120 ∧
    v1 * HAIL_BOUNCE_COEFF < v1 ∧
    HAIL_BOUNCE_COEFF ^ 3 * v2 < HAIL_MIN_BOUNCE_V := by
  have hwux : hailWrap W u_x = u_x := by
    unfold hailWrap
    rw [if_neg (by linarith), if_neg (by linarith)]
  refine ⟨?_, ?_, ?_, ?_, ?_, ?_, ?_⟩
  · intro hy
    simp [hailTick, hy]
  · intro hy hb
    refine ⟨?_, by linarith, by linarith, huv, huv2⟩
    simp [hailTick, hy, hb, hwux]
  · intro hy hb
    constructor
    · simp [hailTick, hy, hb]
    · constructor <;> simp [hailTick, hy, hb] <;> linarith
  · unfold hailWrap
    rw [if_pos hx1]
  · unfold hailWrap
    rw [if_neg (by linarith), if_pos hx2]
  · show v1 * (45/100) < v1
    linarith
  · have h1800 : v2 ≤ 1800 := hv2
    show (45/100:ℚ) ^ 3 * v2 < 180
    nlinarith

/-- Witness for C4 with a concrete non-bounce tick and concrete bounce data. -/
theorem hail_dynamics_witness :
    ((0:ℚ) ≤ 1000 ∧ (0:ℚ) ≤ 5 ∧ (5:ℚ) ≤ 1000 ∧ (10:ℚ) ≤ 10 ∧ (10:ℚ) ≤ 200 ∧
     HAIL_SPEED_MIN ≤ (800:ℚ) ∧ (800:ℚ) ≤ HAIL_SPEED_MAX ∧
     (0:ℚ) ≤ 0 ∧ (0:ℚ) ≤ 8 ∧ (-130:ℚ) < -120 ∧ (1130:ℚ) > 1000 + 120 ∧
     (0:ℚ) < 1 ∧ (1800:ℚ) ≤ HAIL_SPEED_MAX) ∧
    ((¬((HailP.mk 0 50 100).y - (HailP.mk 0 50 100).v_y * (1/10) < 0) →
        hailTick 1000 1000 (1/10) 0 5 10 800 0 (HailP.mk 0 50 100) =
          ⟨hailWrap 1000 ((HailP.mk 0 50 100).x + 0 * (1/10) * (9/50)),
           (HailP.mk 0 50 100).y - (HailP.mk 0 50 100).v_y * (1/10),
           (HailP.mk 0 50 100).v_y⟩) ∧
     ((HailP.mk 0 50 100).y - (HailP.mk 0 50 100).v_y * (1/10) < 0 →
        (HailP.mk 0 50 100).v_y * HAIL_BOUNCE_COEFF < HAIL_MIN_BOUNCE_V →
        hailTick 1000 1000 (1/10) 0 5 10 800 0 (HailP.mk 0 50 100) = ⟨5, 1000 + 10, 800⟩ ∧
        (1000:ℚ) + 10 ≤ 1000 + 10 ∧ (1000:ℚ) + 10 ≤ 1000 + 200 ∧
        HAIL_SPEED_MIN ≤ (800:ℚ) ∧ (800:ℚ) ≤ HAIL_SPEED_MAX) ∧
     ((HailP.mk 0 50 100).y - (HailP.mk 0 50 100).v_y * (1/10) < 0 →
        ¬((HailP.mk 0 50 100).v_y * HAIL_BOUNCE_COEFF < HAIL_MIN_BOUNCE_V) →
        (hailTick 1000 1000 (1/10) 0 5 10 800 0 (HailP.mk 0 50 100)).v_y =
          (HailP.mk 0 50 100).v_y * HAIL_BOUNCE_COEFF ∧
        6 ≤ (hailTick 1000 1000 (1/10) 0 5 10 800 0 (HailP.mk 0 50 100)).y ∧
        (hailTick 1000 1000 (1/10) 0 5 10 800 0 (HailP.mk 0 50 100)).y ≤ 14) ∧
     hailWrap 1000 (-130) = 1000 + 120 ∧ hailWrap 1000 1130 = -120 ∧
     (1:ℚ) * HAIL_BOUNCE_COEFF < 1 ∧
     HAIL_BOUNCE_COEFF ^ 3 * 1800 < HAIL_MIN_BOUNCE_V) :=
  ⟨by norm_num [HAIL_SPEED_MIN, HAIL_SPEED_MAX],
   hail_dynamics 1000 1000 (1/10) 0 5 10 800 0 (-130) 1130 1 1800 (HailP.mk 0 50 100)
     (by norm_num) (by norm_num) (by norm_num) (by norm_num) (by norm_num)
     (by norm_num [HAIL_SPEED_MIN]) (by norm_num [HAIL_SPEED_MAX])
     (by norm_num) (by norm_num) (by norm_num) (by norm_num) (by norm_num)
     (by norm_num [HAIL_SPEED_MAX])⟩

/-- C5 counterexample: with a microburst active at the origin, a hail particle
at `(30, 40)` — distance `50 < 250` from the center (30-40-50 right triangle)
— advances a `dt = 1/10` tick purely under its own velocity: its new `y` is
`30 = 40 - 100·(1/10)`, showing no trace of the downward impulse
`specMicroburstImpulse (1/10) 50 = 72` that the claim says every in-radius
particle of every population receives; hail (like leaves, ash, sand and
insects) receives no microburst force in the code. -/
theorem microburst_hail_counterexample :
    (hailTick 1000 1000 (1/10) 0 0 10 800 0 (HailP.mk 30 40 100)).y = 30 ∧
    (50:ℚ) < MICROBURST_RADIUS ∧
    specMicroburstImpulse (1/10) 50 = 72 ∧
    (hailTick 1000 1000 (1/10) 0 0 10 800 0 (HailP.mk 30 40 100)).y ≠
      40 - 100 * (1/10) - specMicroburstImpulse (1/10) 50 := by
  have hy : (hailTick 1000 1000 (1/10) 0 0 10 800 0 (HailP.mk 30 40 100)).y = 30 := by
    norm_num [hailTick]
  have himp : specMicroburstImpulse (1/10) 50 = 72 := by
    norm_num [specMicroburstImpulse, MICROBURST_STRENGTH]
  refine ⟨hy, by norm_num [MICROBURST_RADIUS], himp, ?_⟩
  rw [hy, himp]
  norm_num

/-- C5 (amended): while a microburst is active, any snow or rain particle
within the influence radius receives, each tick, a downward impulse equal to
`MICROBURST_STRENGTH × dt × (1 − dist/250)` and a radial horizontal push
directed away from the microburst center; populations other than snow and rain
receive no microburst force. -/
theorem microburst_snow_rain
    (dt mx dist x y : ℚ) (hdist : dist < 250) (hd0 : 0 ≤ dist) (hdt : 0 ≤ dt) :
    (snowMicroburst dt mx dist x y).2 = y - specMicroburstImpulse dt dist ∧
    (rainMicroburst dt mx dist x y).2 = y - specMicroburstImpulse dt dist ∧
    0 ≤ specMicroburstImpulse dt dist ∧
    (mx ≤ x → x ≤ (snowMicroburst dt mx dist x y).1 ∧
              x ≤ (rainMicroburst dt mx dist x y).1) ∧
    (x ≤ mx → (snowMicroburst dt mx dist x y).1 ≤ x ∧
              (rainMicroburst dt mx dist x y).1 ≤ x) := by
  have hden : (0:ℚ) < microDenom dist := lt_of_lt_of_le one_pos (le_max_left _ _)
  have himp : 0 ≤ specMicroburstImpulse dt dist := by
    have hq : dist / 250 ≤ 1 := by
      rw [div_le_one (by norm_num : (0:ℚ) < 250)]
      linarith
    have : (0:ℚ) ≤ 1 - dist / 250 := by linarith
    exact mul_nonneg (mul_nonneg (by norm_num [MICROBURST_STRENGTH]) hdt) this
  refine ⟨?_, ?_, himp, ?_, ?_⟩
  · rw [snowMicroburst_apply dt mx dist x y hdist]
    show y - (MICROBURST_STRENGTH * dt) * (1 - dist / 250) = _
    unfold specMicroburstImpulse
    ring
  · rw [rainMicroburst_apply dt mx dist x y hdist]
    show y - (MICROBURST_STRENGTH * dt) * (1 - dist / 250) = _
    unfold specMicroburstImpulse
    ring
  · intro hmx
    have hpush : 0 ≤ (x - mx) / microDenom dist * (MICROBURST_STRENGTH * (3/100)) * dt :=
      mul_nonneg (mul_nonneg (div_nonneg (by linarith) hden.le)
        (by norm_num [MICROBURST_STRENGTH])) hdt
    constructor
    · rw [snowMicroburst_apply dt mx dist x y hdist]
      show x ≤ x + _
      linarith
    · rw [rainMicroburst_apply dt mx dist x y hdist]
      show x ≤ x + _
      linarith
  · intro hmx
    have hq : (x - mx) / microDenom dist ≤ 0 :=
      div_nonpos_iff.mpr (Or.inr ⟨by linarith, hden.le⟩)
    have hpush : (x - mx) / microDenom dist * (MICROBURST_STRENGTH * (3/100)) * dt ≤ 0 := by
      have h3 : 0 ≤ MICROBURST_STRENGTH * (3/100) * dt * (-((x - mx) / microDenom dist)) :=
        mul_nonneg (mul_nonneg (by norm_num [MICROBURST_STRENGTH]) hdt)
          (neg_nonneg.mpr hq)
      linarith
    constructor
    · rw [snowMicroburst_apply dt mx dist x y hdist]
      show x + _ ≤ x
      linarith
    · rw [rainMicroburst_apply dt mx dist x y hdist]
      show x + _ ≤ x
      linarith

/-- Witness for C5's amended theorem at `dt = 1/10`, center x `0`, distance
`50`, particle at `x = 30`. -/
theorem microburst_snow_rain_witness :
    ((50:ℚ) < 250 ∧ (0:ℚ) ≤ 50 ∧ (0:ℚ) ≤ 1/10) ∧
    ((snowMicroburst (1/10) 0 50 30 40).2 = 40 - specMicroburstImpulse (1/10) 50 ∧
     (rainMicroburst (1/10) 0 50 30 40).2 = 40 - specMicroburstImpulse (1/10) 50 ∧
     0 ≤ specMicroburstImpulse (1/10) 50 ∧
     ((0:ℚ) ≤ 30 → (30:ℚ) ≤ (snowMicroburst (1/10) 0 50 30 40).1 ∧
                   (30:ℚ) ≤ (rainMicroburst (1/10) 0 50 30 40).1) ∧
     ((30:ℚ) ≤ 0 → (snowMicroburst (1/10) 0 50 30 40).1 ≤ 30 ∧
                   (rainMicroburst (1/10) 0 50 30 40).1 ≤ 30)) :=
  ⟨by norm_num,
   microburst_snow_rain (1/10) 0 50 30 40 (by norm_num) (by norm_num) (by norm_num)⟩

/-- C6 counterexample, two failures of the claim at concrete inputs.  First,
`respawn_top` draws the new rotation speed from the fixed range `[-60, 60]` —
not from the population's configured range `SNOW_ROTATION_SPEED = (10, 40)`:
the reachable draw `-50` lands outside the configured range — and the
particle's fall speed and jitter are not re-randomized at all: they come back
unchanged.  Second, the claim's wrap clause fails for leaves: a leaf at
`x = 1450` (past the `W + 400 = 1400` horizontal margin, vertically well in
bounds at `y = 500`) is respawned through `respawn_top` — its `y` jumps to
`H + 20 = 1020` — rather than wrapping to the opposite edge without
respawning. -/
theorem respawn_top_counterexample :
    (respawn_top 1000 1000 5 20 0 (-50) (KineticP.mk 0 0 77 3 4 0 0)).rot_speed = -50 ∧
    ((-60:ℚ) ≤ -50 ∧ (-50:ℚ) ≤ 60) ∧
    ¬(SNOW_ROTATION_SPEED_MIN ≤
        (respawn_top 1000 1000 5 20 0 (-50) (KineticP.mk 0 0 77 3 4 0 0)).rot_speed ∧
      (respawn_top 1000 1000 5 20 0 (-50) (KineticP.mk 0 0 77 3 4 0 0)).rot_speed ≤
        SNOW_ROTATION_SPEED_MAX) ∧
    (respawn_top 1000 1000 5 20 0 (-50) (KineticP.mk 0 0 77 3 4 0 0)).speed = 77 ∧
    (respawn_top 1000 1000 5 20 0 (-50) (KineticP.mk 0 0 77 3 4 0 0)).jitter = 3 ∧
    leafBoundary 1000 1000 5 20 0 (-50) (KineticP.mk 1450 500 77 3 4 0 0) =
      respawn_top 1000 1000 5 20 0 (-50) (KineticP.mk 1450 500 77 3 4 0 0) ∧
    (leafBoundary 1000 1000 5 20 0 (-50) (KineticP.mk 1450 500 77 3 4 0 0)).y = 1020 ∧
    (KineticP.mk 1450 500 77 3 4 0 0).y = 500 ∧
    (leafBoundary 1000 1000 5 20 0 (-50) (KineticP.mk 1450 500 77 3 4 0 0)).y ≠
      (KineticP.mk 1450 500 77 3 4 0 0).y := by
  have hcond : (KineticP.mk 1450 500 77 3 4 0 0 : KineticP).y < -200 ∨
      (KineticP.mk 1450 500 77 3 4 0 0 : KineticP).x < -400 ∨
      (KineticP.mk 1450 500 77 3 4 0 0 : KineticP).x > (1000:ℚ) + 400 :=
    Or.inr (Or.inr (by norm_num))
  have hleaf : leafBoundary 1000 1000 5 20 0 (-50) (KineticP.mk 1450 500 77 3 4 0 0) =
      respawn_top 1000 1000 5 20 0 (-50) (KineticP.mk 1450 500 77 3 4 0 0) := by
    unfold leafBoundary
    rw [if_pos hcond]
  refine ⟨rfl, by norm_num, ?_, rfl, rfl, hleaf, ?_, rfl, ?_⟩
  · norm_num [respawn_top, SNOW_ROTATION_SPEED_MIN, SNOW_ROTATION_SPEED_MAX]
  · rw [hleaf]
    norm_num [respawn_top]
  · rw [hleaf]
    norm_num [respawn_top]

/-- C6 (amended): after a boundary respawn the particle's position lies within
the configured spawn region (`x ∈ [0, W]`, `y ∈ [H+20, H+200]`); only the
rotation attributes are freshly randomized, the angle from `[0, 360]` and the
rotation speed from the fixed range `[-60, 60]` (not the population's
configured range); speed, jitter and size are retained unchanged.  The
horizontal-margin policy is per population: a snow or rain particle that
drifts past a horizontal margin wraps to the opposite edge instead of
respawning, while a leaf that drifts past the `±400` horizontal margins does
not wrap — it is respawned through `respawn_top`; a leaf inside its bounds is
left untouched. -/
theorem respawn_top_ok
    (W H u_x u_y u_a u_r x1 x2 radius : ℚ) (p q q2 : KineticP)
    (hW : 0 ≤ W) (hrd : 0 ≤ radius)
    (hux : 0 ≤ u_x) (hux2 : u_x ≤ W)
    (huy : 20 ≤ u_y) (huy2 : u_y ≤ 200)
    (hua : 0 ≤ u_a) (hua2 : u_a ≤ 360)
    (hur : -60 ≤ u_r) (hur2 : u_r ≤ 60)
    (hx1 : x1 + radius < -120) (hx2 : x2 - radius > W + 120)
    (hq : q.x > W + 400)
    (hq2 : ¬(q2.y < -200 ∨ q2.x < -400 ∨ q2.x > W + 400)) :
    0 ≤ (respawn_top W H u_x u_y u_a u_r p).x ∧
    (respawn_top W H u_x u_y u_a u_r p).x ≤ W ∧
    H + 20 ≤ (respawn_top W H u_x u_y u_a u_r p).y ∧
    (respawn_top W H u_x u_y u_a u_r p).y ≤ H + 200 ∧
    (respawn_top W H u_x u_y u_a u_r p).speed = p.speed ∧
    (respawn_top W H u_x u_y u_a u_r p).jitter = p.jitter ∧
    (respawn_top W H u_x u_y u_a u_r p).radius = p.radius ∧
    0 ≤ (respawn_top W H u_x u_y u_a u_r p).angle ∧
    (respawn_top W H u_x u_y u_a u_r p).angle ≤ 360 ∧
    -60 ≤ (respawn_top W H u_x u_y u_a u_r p).rot_speed ∧
    (respawn_top W H u_x u_y u_a u_r p).rot_speed ≤ 60 ∧
    snowWrap W radius x1 = W + radius ∧
    snowWrap W radius x2 = -radius ∧
    leafBoundary W H u_x u_y u_a u_r q = respawn_top W H u_x u_y u_a u_r q ∧
    leafBoundary W H u_x u_y u_a u_r q2 = q2 := by
  refine ⟨hux, hux2, by show H + 20 ≤ H + u_y; linarith,
    by show H + u_y ≤ H + 200; linarith,
    rfl, rfl, rfl, hua, hua2, hur, hur2, ?_, ?_, ?_, ?_⟩
  · unfold snowWrap
    rw [if_pos hx1]
  · unfold snowWrap
    rw [if_neg (by linarith), if_pos hx2]
  · unfold leafBoundary
    rw [if_pos (Or.inr (Or.inr hq))]
  · unfold leafBoundary
    rw [if_neg hq2]

/-- Witness for C6's amended theorem with concrete draws and positions
(out-of-bounds leaf at `x = 1450`, in-bounds leaf at `(500, 500)`). -/
theorem respawn_top_ok_witness :
    ((0:ℚ) ≤ 1000 ∧ (0:ℚ) ≤ 4 ∧ (0:ℚ) ≤ 5 ∧ (5:ℚ) ≤ 1000 ∧
     (20:ℚ) ≤ 20 ∧ (20:ℚ) ≤ 200 ∧ (0:ℚ) ≤ 0 ∧ (0:ℚ) ≤ 360 ∧
     (-60:ℚ) ≤ 0 ∧ (0:ℚ) ≤ 60 ∧ (-130:ℚ) + 4 < -120 ∧ (1130:ℚ) - 4 > 1000 + 120 ∧
     (KineticP.mk 1450 500 77 3 4 0 0).x > (1000:ℚ) + 400 ∧
     ¬((KineticP.mk 500 500 77 3 4 0 0).y < -200 ∨
       (KineticP.mk 500 500 77 3 4 0 0).x < -400 ∨
       (KineticP.mk 500 500 77 3 4 0 0).x > (1000:ℚ) + 400)) ∧
    (0 ≤ (respawn_top 1000 1000 5 20 0 0 (KineticP.mk 0 0 77 3 4 0 0)).x ∧
     (respawn_top 1000 1000 5 20 0 0 (KineticP.mk 0 0 77 3 4 0 0)).x ≤ 1000 ∧
     1000 + 20 ≤ (respawn_top 1000 1000 5 20 0 0 (KineticP.mk 0 0 77 3 4 0 0)).y ∧
     (respawn_top 1000 1000 5 20 0 0 (KineticP.mk 0 0 77 3 4 0 0)).y ≤ 1000 + 200 ∧
     (respawn_top 1000 1000 5 20 0 0 (KineticP.mk 0 0 77 3 4 0 0)).speed =
       (KineticP.mk 0 0 77 3 4 0 0).speed ∧
     (respawn_top 1000 1000 5 20 0 0 (KineticP.mk 0 0 77 3 4 0 0)).jitter =
       (KineticP.mk 0 0 77 3 4 0 0).jitter ∧
     (respawn_top 1000 1000 5 20 0 0 (KineticP.mk 0 0 77 3 4 0 0)).radius =
       (KineticP.mk 0 0 77 3 4 0 0).radius ∧
     0 ≤ (respawn_top 1000 1000 5 20 0 0 (KineticP.mk 0 0 77 3 4 0 0)).angle ∧
     (respawn_top 1000 1000 5 20 0 0 (KineticP.mk 0 0 77 3 4 0 0)).angle ≤ 360 ∧
     -60 ≤ (respawn_top 1000 1000 5 20 0 0 (KineticP.mk 0 0 77 3 4 0 0)).rot_speed ∧
     (respawn_top 1000 1000 5 20 0 0 (KineticP.mk 0 0 77 3 4 0 0)).rot_speed ≤ 60 ∧
     snowWrap 1000 4 (-130) = 1000 + 4 ∧
     snowWrap 1000 4 1130 = -4 ∧
     leafBoundary 1000 1000 5 20 0 0 (KineticP.mk 1450 500 77 3 4 0 0) =
       respawn_top 1000 1000 5 20 0 0 (KineticP.mk 1450 500 77 3 4 0 0) ∧
     leafBoundary 1000 1000 5 20 0 0 (KineticP.mk 500 500 77 3 4 0 0) =
       KineticP.mk 500 500 77 3 4 0 0) :=
  ⟨by norm_num,
   respawn_top_ok 1000 1000 5 20 0 0 (-130) 1130 4 (KineticP.mk 0 0 77 3 4 0 0)
     (KineticP.mk 1450 500 77 3 4 0 0) (KineticP.mk 500 500 77 3 4 0 0)
     (by norm_num) (by norm_num) (by norm_num) (by norm_num) (by norm_num)
     (by norm_num) (by norm_num) (by norm_num) (by norm_num) (by norm_num)
     (by norm_num) (by norm_num) (by norm_num) (by norm_num)⟩

end Snowfall
